import Mathlib

/-!
Verification of the per-video bookmark store of a browser companion tool
(content script of a timestamp-saving browser extension).

The development shallowly embeds the storage-facing and list-facing logic
of src/content.js.  JavaScript numbers are modelled as rationals (no claim
depends on floating-point rounding), JavaScript arrays as Lean lists,
the single persisted key-value object as a function from string keys to
optional stored values, and the asynchronous chrome.storage calls as an
explicit trace of storage operations performed by each routine.
-/

/-- A saved bookmark as produced by saveTimestamp in src/content.js:
an object with a numeric time (seconds) and a string note. -/
structure Bookmark where
  time : ℚ
  note : String
deriving DecidableEq, Repr

/-- A value stored under one video-id key of the persisted "timestamps"
object.  The code inspects stored values only through Array.isArray, so a
well-formed entry is an array of bookmarks and every other JavaScript
value (number, string, object, null, ...) behaves identically; those are
carried as an opaque code so that distinct corrupt values stay distinct. -/
inductive StoredVal where
  | arr (l : List Bookmark)
  | nonArray (v : ℕ)
deriving DecidableEq, Repr

/-- The persisted mapping held under the single top-level "timestamps"
key: video id (JavaScript property key, hence a string) to stored value.
An absent property is none.  The chrome.storage default argument
(storageGet with default empty object) makes the absent-key case behave
as the everywhere-none mapping, so the whole storage is modelled by
this one mapping. -/
def TimestampsMap : Type := String → Option StoredVal

/-- One asynchronous chrome.storage.local operation as performed by the
code, recorded in order: a read of the full mapping, or a write of a full
mapping.  A routine that never touches storage has an empty trace. -/
inductive StorageOp where
  | get
  | set (m : TimestampsMap)

/-- JavaScript property-key coercion for the id argument: persist is
called with the current videoId, and a null id used as an object key
becomes the string "null". -/
def idKey : Option String → String
  | none => "null"
  | some s => s

/-- JavaScript falsiness of the id values that reach the store
(null and strings): null and the empty string are falsy. -/
def jsFalsyId : Option String → Bool
  | none => true
  | some s => s == ""

/-- loadSavedTimestampsForVideo (src/content.js, lines 114-127): a falsy
id resets the in-memory list to empty without touching storage; otherwise
the full mapping is read and the entry for the id is installed when
Array.isArray holds of it, the empty list otherwise.  Returns the new
in-memory savedTimestamps list together with the storage-operation trace.
The try/catch around the read (storage failure resets to empty and logs)
is outside this model: storage is modelled as available. -/
def loadSavedTimestampsForVideo (storage : TimestampsMap) (id : Option String) :
    List Bookmark × List StorageOp :=
  if jsFalsyId id then ([], [])
  else
    match storage (idKey id) with
    | some (StoredVal.arr l) => (l, [StorageOp.get])
    | _ => ([], [StorageOp.get])

/-- persistSavedTimestampsForVideo (src/content.js, lines 129-138):
re-reads the full mapping, sets the entry for the id to the current
in-memory list, and writes the whole mapping back.  Returns the written
mapping and the trace (one read, one write). -/
def persistSavedTimestampsForVideo (storage : TimestampsMap) (id : Option String)
    (l : List Bookmark) : TimestampsMap × List StorageOp :=
  let updated : TimestampsMap := fun k =>
    if k = idKey id then some (StoredVal.arr l) else storage k
  (updated, [StorageOp.get, StorageOp.set updated])

/-- The module-level mutable state of src/content.js that the claims
mention: the active video id, the in-memory bookmark list, and whether
the overlay container element currently exists. -/
structure CState where
  videoId : Option String
  savedTimestamps : List Bookmark
  containerExists : Bool
deriving Repr

/-- saveTimestamp (src/content.js, lines 310-316): with a falsy videoId
it returns at once; otherwise it appends the bookmark and persists.
Number(time) and (note or empty) are identities on the modelled values.
The trailing re-render calls touch only the DOM and are not modelled. -/
def saveTimestamp (st : CState) (storage : TimestampsMap) (time : ℚ) (note : String) :
    CState × TimestampsMap × List StorageOp :=
  if jsFalsyId st.videoId then (st, storage, [])
  else
    let l := st.savedTimestamps ++ [⟨time, note⟩]
    let pr := persistSavedTimestampsForVideo storage st.videoId l
    ({ st with savedTimestamps := l }, pr.1, pr.2)

/-- deleteTimestamp (src/content.js, lines 318-324): an index below zero
or at least the list length returns at once (nothing read or written);
otherwise splice(index, 1) removes the element at the index and the list
is persisted.  The index is modelled as an integer; the indices the page
produces are the natural numbers written into dataset.index. -/
def deleteTimestamp (st : CState) (storage : TimestampsMap) (index : ℤ) :
    CState × TimestampsMap × List StorageOp :=
  if index < 0 ∨ (st.savedTimestamps.length : ℤ) ≤ index then (st, storage, [])
  else
    let l := st.savedTimestamps.eraseIdx index.toNat
    let pr := persistSavedTimestampsForVideo storage st.videoId l
    ({ st with savedTimestamps := l }, pr.1, pr.2)

/-- onUrlChange (src/content.js, lines 493-513) restricted to the state
and storage effects: an unchanged id returns at once; a falsy new id
clears the in-memory list and destroys the container (destroyContainer,
lines 155-160) without touching storage; a truthy new id loads the list
for it and (re)creates the container when the host-page side panel is
present.  The player rebinding and render calls touch only the DOM. -/
def onUrlChange (st : CState) (storage : TimestampsMap) (newId : Option String)
    (secondaryPresent : Bool) : CState × List StorageOp :=
  if newId = st.videoId then (st, [])
  else if jsFalsyId newId then
    ({ videoId := newId, savedTimestamps := [], containerExists := false }, [])
  else
    let pr := loadSavedTimestampsForVideo storage newId
    ({ videoId := newId, savedTimestamps := pr.1,
       containerExists := st.containerExists || secondaryPresent }, pr.2)

/-!
Theorems about the storage and list operations (claims on the Bookmark
Store and Navigation Watcher).
-/

/-- Claim C1, counterexample: the persist-then-load round trip fails for
the non-null identifier consisting of the empty string, because the load
routine treats every falsy id (null or empty) as "no video" and resets
the list to empty without reading storage, while persist happily writes
the entry.  So persisting a one-element list under the empty identifier
and loading it back yields the empty list. -/
theorem persist_load_roundtrip_empty_id_fails :
    (loadSavedTimestampsForVideo
      (persistSavedTimestampsForVideo (fun _ => none) (some "") [⟨5, ""⟩]).1
      (some "")).1 ≠ [⟨5, ""⟩] := by decide

/-- Claim C1 (amended): for every non-null and non-empty identifier X,
every prior persisted mapping M and every in-memory list L, persisting L
under X and then loading X yields exactly L. -/
theorem persist_load_roundtrip (X : String) (hX : X ≠ "") (M : TimestampsMap)
    (L : List Bookmark) :
    (loadSavedTimestampsForVideo
      (persistSavedTimestampsForVideo M (some X) L).1 (some X)).1 = L := by
  unfold loadSavedTimestampsForVideo persistSavedTimestampsForVideo jsFalsyId idKey
  simp [hX]

/-- Concrete instance of the amended round trip for identifier "abc". -/
theorem persist_load_roundtrip_witness :
    (loadSavedTimestampsForVideo
      (persistSavedTimestampsForVideo (fun _ => none) (some "abc") [⟨5, "x"⟩]).1
      (some "abc")).1 = [⟨5, "x"⟩] :=
  persist_load_roundtrip "abc" (by decide) (fun _ => none) [⟨5, "x"⟩]

/-- Claim C2: persist writes back the prior mapping with only the entry
for the given identifier replaced by the in-memory list; every entry for
any other key is unchanged, and the trace is exactly one read followed by
one write of that mapping. -/
theorem persist_frame (M : TimestampsMap) (X : String) (L : List Bookmark) :
    (persistSavedTimestampsForVideo M (some X) L).1 X = some (StoredVal.arr L) ∧
    (∀ k, k ≠ X → (persistSavedTimestampsForVideo M (some X) L).1 k = M k) ∧
    (persistSavedTimestampsForVideo M (some X) L).2 =
      [StorageOp.get, StorageOp.set (persistSavedTimestampsForVideo M (some X) L).1] := by
  refine ⟨?_, ?_, rfl⟩
  · simp [persistSavedTimestampsForVideo, idKey]
  · intro k hk
    simp [persistSavedTimestampsForVideo, idKey, hk]

/-- Concrete instance of the frame property: writing under "a" leaves the
(corrupt) entry under "b" untouched. -/
theorem persist_frame_witness :
    (persistSavedTimestampsForVideo (fun _ => some (StoredVal.nonArray 7))
      (some "a") [⟨5, ""⟩]).1 "b" = some (StoredVal.nonArray 7) :=
  (persist_frame (fun _ => some (StoredVal.nonArray 7)) "a" [⟨5, ""⟩]).2.1 "b" (by decide)

/-- Claim C3: resynchronization is a no-op (state untouched, no storage
operation) when the newly resolved id equals the current one, and when
the new id is null it empties the in-memory list and removes the overlay
container while performing no storage read or write. -/
theorem onUrlChange_noop_and_null_teardown (st : CState) (storage : TimestampsMap)
    (newId : Option String) (secondaryPresent : Bool) :
    (newId = st.videoId →
      onUrlChange st storage newId secondaryPresent = (st, [])) ∧
    (newId = none → st.videoId ≠ none →
      onUrlChange st storage newId secondaryPresent =
        ({ videoId := none, savedTimestamps := [], containerExists := false }, [])) := by
  constructor
  · intro h
    simp [onUrlChange, h]
  · intro h hne
    subst h
    have hcond : ¬((none : Option String) = st.videoId) := fun hc => hne hc.symm
    simp [onUrlChange, hcond, jsFalsyId]

/-- Concrete instances of both resynchronization branches. -/
theorem onUrlChange_noop_and_null_teardown_witness :
    onUrlChange ⟨some "a", [⟨5, ""⟩], true⟩ (fun _ => none) (some "a") true
      = (⟨some "a", [⟨5, ""⟩], true⟩, []) ∧
    onUrlChange ⟨some "a", [⟨5, ""⟩], true⟩ (fun _ => none) none true
      = (⟨none, [], false⟩, []) :=
  ⟨(onUrlChange_noop_and_null_teardown ⟨some "a", [⟨5, ""⟩], true⟩ (fun _ => none)
      (some "a") true).1 rfl,
   (onUrlChange_noop_and_null_teardown ⟨some "a", [⟨5, ""⟩], true⟩ (fun _ => none)
      none true).2 rfl (by decide)⟩

/-- Claim C6: deleteTimestamp with an integer index below zero or at
least the list length is a silent no-op (state, storage and trace all
untouched); an index in range removes exactly the element at that index
and persists the shortened list. -/
theorem deleteTimestamp_validates (st : CState) (storage : TimestampsMap) (index : ℤ) :
    ((index < 0 ∨ (st.savedTimestamps.length : ℤ) ≤ index) →
      deleteTimestamp st storage index = (st, storage, [])) ∧
    (0 ≤ index → index < (st.savedTimestamps.length : ℤ) →
      deleteTimestamp st storage index =
        ({ st with savedTimestamps :=
             st.savedTimestamps.take index.toNat ++ st.savedTimestamps.drop (index.toNat + 1) },
         (persistSavedTimestampsForVideo storage st.videoId
           (st.savedTimestamps.take index.toNat ++ st.savedTimestamps.drop (index.toNat + 1))).1,
         (persistSavedTimestampsForVideo storage st.videoId
           (st.savedTimestamps.take index.toNat ++ st.savedTimestamps.drop (index.toNat + 1))).2)) := by
  constructor
  · intro h
    unfold deleteTimestamp
    rw [if_pos h]
  · intro h0 hlt
    have hcond : ¬(index < 0 ∨ (st.savedTimestamps.length : ℤ) ≤ index) := by omega
    unfold deleteTimestamp
    rw [if_neg hcond, List.eraseIdx_eq_take_drop_succ]

/-- Concrete instances of both deleteTimestamp branches on a one-element
list: index 3 is a no-op, index 0 removes the element and persists. -/
theorem deleteTimestamp_validates_witness :
    deleteTimestamp ⟨some "a", [⟨5, ""⟩], true⟩ (fun _ => none) 3
      = (⟨some "a", [⟨5, ""⟩], true⟩, fun _ => none, []) ∧
    deleteTimestamp ⟨some "a", [⟨5, ""⟩], true⟩ (fun _ => none) 0
      = (⟨some "a", [], true⟩,
         (persistSavedTimestampsForVideo (fun _ => none) (some "a") []).1,
         (persistSavedTimestampsForVideo (fun _ => none) (some "a") []).2) :=
  ⟨(deleteTimestamp_validates ⟨some "a", [⟨5, ""⟩], true⟩ (fun _ => none) 3).1
      (Or.inr (by decide)),
   (deleteTimestamp_validates ⟨some "a", [⟨5, ""⟩], true⟩ (fun _ => none) 0).2
      (by decide) (by decide)⟩

/-- Claim C7: loading never fails on corrupted storage: an absent entry
or a non-array entry yields the empty in-memory list, and the loaded
list is empty unless the entry is an array, in which case it is exactly
that array. -/
theorem load_tolerates_corrupt_entries (M : TimestampsMap) (id : Option String) :
    (M (idKey id) = none → (loadSavedTimestampsForVideo M id).1 = []) ∧
    (∀ v, M (idKey id) = some (StoredVal.nonArray v) →
      (loadSavedTimestampsForVideo M id).1 = []) ∧
    ((loadSavedTimestampsForVideo M id).1 = [] ∨
      ∃ l, M (idKey id) = some (StoredVal.arr l) ∧
        (loadSavedTimestampsForVideo M id).1 = l) := by
  unfold loadSavedTimestampsForVideo
  by_cases hf : jsFalsyId id
  · simp [hf]
  · cases h : M (idKey id) with
    | none => simp [hf, h]
    | some v =>
      cases v with
      | arr l => simp [hf, h]
      | nonArray n => simp [hf, h]

/-- Concrete instance: a corrupt (non-array) entry under "a" loads as the
empty list. -/
theorem load_tolerates_corrupt_entries_witness :
    (loadSavedTimestampsForVideo
      (fun k => if k = "a" then some (StoredVal.nonArray 0) else none) (some "a")).1 = [] :=
  (load_tolerates_corrupt_entries
    (fun k => if k = "a" then some (StoredVal.nonArray 0) else none) (some "a")).2.1 0
    (by decide)

/-- Claim C9 (implicit): saveTimestamp with a null active video id is a
no-op for every time and note: state and storage are untouched and no
storage operation runs. -/
theorem saveTimestamp_noop_on_null_id (st : CState) (storage : TimestampsMap)
    (time : ℚ) (note : String) (h : st.videoId = none) :
    saveTimestamp st storage time note = (st, storage, []) := by
  unfold saveTimestamp
  simp [h, jsFalsyId]

/-- Concrete instance of the null-id no-op for saveTimestamp. -/
theorem saveTimestamp_noop_on_null_id_witness :
    saveTimestamp ⟨none, [], false⟩ (fun _ => none) 5 "x"
      = (⟨none, [], false⟩, fun _ => none, []) :=
  saveTimestamp_noop_on_null_id ⟨none, [], false⟩ (fun _ => none) 5 "x" rfl

/-!
Time formatting and CSV export (src/content.js: formatTime, lines
100-109; exportTimestampsAsCSV, lines 437-465).
-/

/-- padStart(2, "0") of JavaScript: left-pad with zeros to length 2. -/
def pad2 (s : String) : String :=
  if s.length < 2 then String.mk (List.replicate (2 - s.length) '0') ++ s else s

/-- formatTime (src/content.js, lines 100-109): floor the seconds, split
into hours, minutes and seconds with JavaScript semantics (remainder
truncates toward zero, Math.floor of the quotient rounds toward minus
infinity), omit the hours segment when it is not positive, zero-pad each
kept segment to two digits. -/
def formatTime (seconds : ℚ) : String :=
  let s : ℤ := seconds.floor
  let hrs : ℤ := Int.fdiv s 3600
  let mins : ℤ := Int.fdiv (Int.tmod s 3600) 60
  let secs : ℤ := Int.tmod s 60
  (if 0 < hrs then pad2 (toString hrs) ++ ":" else "")
    ++ pad2 (toString mins) ++ ":" ++ pad2 (toString secs)

/-- JavaScript number-to-string conversion on the rational model of JS
numbers: exact for the integral values the verified statements evaluate;
a non-integral value, which JavaScript prints as a shortest round-trip
decimal, is rendered here as numerator/denominator and is relied on by
no statement below. -/
def jsNumToString (q : ℚ) : String :=
  if q.den = 1 then toString q.num
  else toString q.num ++ "/" ++ toString q.den

/-- The note escaping of the CSV export: every double quote is doubled
(replace of the global quote pattern in src/content.js, line 452). -/
def escapeQuotes (s : String) : String :=
  String.mk (s.data.foldr (fun c acc => if c = '"' then '"' :: '"' :: acc else c :: acc) [])

/-- One CSV data row (src/content.js, line 453): raw seconds, quoted
formatted time, quoted escaped note, terminated by a newline. -/
def csvRow (b : Bookmark) : String :=
  jsNumToString b.time ++ ",\"" ++ formatTime b.time ++ "\",\"" ++ escapeQuotes b.note ++ "\"\n"

/-- exportTimestampsAsCSV (src/content.js, lines 437-465) restricted to
the generated CSV text: with an empty list the function alerts and
produces no file (none here); otherwise the header row followed by one
row per bookmark in list order.  Filename construction and the download
DOM manipulation are not modelled. -/
def exportTimestampsAsCSV (l : List Bookmark) : Option String :=
  if l.length = 0 then none
  else some (l.foldl (fun acc b => acc ++ csvRow b) "TimeSeconds,TimeFormatted,Note\n")

/-!
The inline note-commit handler (focusout listener registered in
createContainerIfNeeded, src/content.js, lines 287-296).  Unlike
deleteTimestamp it performs no index validation, so its effect on the
array must be modelled with full JavaScript array-assignment semantics:
assigning at an integer index at least the length extends the array with
holes and stores the assigned object, and the assigned object is the
spread of the (possibly undefined) previous element with the note
replaced, hence may lack a time property. -/

/-- One element slot of the in-memory array under raw JavaScript
semantics: a bookmark-like object whose time property may be absent, or
a hole (reading it gives undefined). -/
inductive JsSlot where
  | obj (time : Option ℚ) (note : String)
  | hole
deriving DecidableEq, Repr

/-- Spread of a possibly-undefined array element with the note property
replaced: spreading undefined contributes no properties. -/
def spreadWithNote : JsSlot → String → JsSlot
  | JsSlot.obj t _, n => JsSlot.obj t n
  | JsSlot.hole, n => JsSlot.obj none n

/-- JavaScript String.prototype.trim on both ends (the model uses the
Lean whitespace predicate; the verified statements use ASCII text where
the two agree). -/
def jsTrim (s : String) : String :=
  String.mk (((s.data.dropWhile Char.isWhitespace).reverse.dropWhile Char.isWhitespace).reverse)

/-- Effect of the focusout note-commit handler on the in-memory array
(src/content.js, lines 287-296): savedTimestamps[idx] is assigned the
spread of savedTimestamps[idx] with note set to the trimmed input text.
A negative index is a plain property write that leaves the array
elements unchanged; an index within the length replaces that slot; an
index at or beyond the length extends the array with holes and appends
a time-less object.  (The handler then persists unconditionally.) -/
def commitNoteEdit (l : List JsSlot) (idx : ℤ) (newNote : String) : List JsSlot :=
  let trimmed := jsTrim newNote
  if idx < 0 then l
  else
    let n := idx.toNat
    if h : n < l.length then
      l.set n (spreadWithNote (l.get ⟨n, h⟩) trimmed)
    else
      l ++ List.replicate (n - l.length) JsSlot.hole ++ [JsSlot.obj none trimmed]

/-!
Theorems for the CSV export and note-commit claims.
-/

/-- Claim C8, counterexample: on the two-bookmark list (time 5 with empty
note, time 130 with note "intro") the generated CSV is not the string the
claim specifies, because that string contains a stray space before the
newline that ends the first data row and the code writes no such space. -/
theorem export_csv_not_claimed_string :
    exportTimestampsAsCSV [⟨5, ""⟩, ⟨130, "intro"⟩] ≠
      some "TimeSeconds,TimeFormatted,Note\n5,\"00:05\",\"\" \n130,\"02:10\",\"intro\"\n" := by
  decide

/-- Claim C8 (amended): on that list the generated CSV is exactly the
header row followed by the two data rows in list order, with quoted
formatted times and quoted notes and no space before any newline. -/
theorem export_csv_two_bookmarks :
    exportTimestampsAsCSV [⟨5, ""⟩, ⟨130, "intro"⟩] =
      some "TimeSeconds,TimeFormatted,Note\n5,\"00:05\",\"\"\n130,\"02:10\",\"intro\"\n" := by
  decide

/-- Claim C4: behavior of the note-commit handler at the failing input.
On a one-element list, committing a note at the out-of-range index 1
does not leave the list unchanged: it appends a time-less object, while
an in-range commit replaces exactly the note. -/
theorem commitNoteEdit_out_of_range_mutates :
    commitNoteEdit [JsSlot.obj (some 5) ""] 1 "x"
      = [JsSlot.obj (some 5) "", JsSlot.obj none "x"] ∧
    commitNoteEdit [JsSlot.obj (some 5) ""] 0 " hi "
      = [JsSlot.obj (some 5) "hi"] := by
  constructor
  · decide
  · decide

/-!
Identity resolution (getVideoIdFromUrl, src/content.js, lines 56-74).

The routine consumes the platform URL constructor, which is not part of
the repository; it is modelled here restricted to the three features the
routine reads: hostname, pathname and the v search parameter.  The model
parses the canonical scheme://host/path?query#fragment form: it strips
surrounding control characters and embedded tab or newline characters,
validates the scheme and a numeric port, lowercases the host, drops user
information before the last at sign, and rejects inputs without a
scheme-plus-slashes prefix or with an empty host (the constructor throws
there and the routine catches and returns null).  Percent-decoding, path
normalization, bracketed IPv6 hosts and the tolerance of the platform
parser for missing slashes after special schemes are outside the model;
no statement below depends on them.
-/

/-- Split a character list at the first occurrence of a substring,
returning the text before it and the text after it. -/
def splitAtSub (needle : List Char) : List Char → Option (List Char × List Char)
  | [] => if needle = [] then some ([], []) else none
  | c :: rest =>
    if needle.isPrefixOf (c :: rest) then some ([], (c :: rest).drop needle.length)
    else
      match splitAtSub needle rest with
      | some (pre, post) => some (c :: pre, post)
      | none => none

/-- Split a character list on a separator character (JavaScript
String.prototype.split with a one-character separator). -/
def splitOnChar (sep : Char) : List Char → List (List Char)
  | [] => [[]]
  | c :: rest =>
    if c = sep then [] :: splitOnChar sep rest
    else
      match splitOnChar sep rest with
      | [] => [[c]]
      | h :: t => (c :: h) :: t

/-- Substring containment (JavaScript String.prototype.includes). -/
def containsSub : List Char → List Char → Bool
  | [], needle => needle = []
  | c :: rest, needle => needle.isPrefixOf (c :: rest) || containsSub rest needle

/-- A valid URL scheme: a letter followed by letters, digits, plus,
minus or dot. -/
def isSchemeChars : List Char → Bool
  | [] => false
  | c :: rest => c.isAlpha && rest.all (fun ch => ch.isAlphanum || ch == '+' || ch == '-' || ch == '.')

/-- Drop the user-information part of an authority: keep what follows
the last at sign. -/
def dropUserinfo (auth : List Char) : List Char :=
  (auth.reverse.takeWhile (fun c => c != '@')).reverse

/-- The three components of a parsed URL that getVideoIdFromUrl reads. -/
structure URLParts where
  hostname : String
  pathname : String
  query : String
deriving DecidableEq, Repr

/-- Input preprocessing of the platform URL parser: strip leading and
trailing control-or-space characters, remove every tab and newline. -/
def urlPreprocess (s : String) : List Char :=
  ((s.data.dropWhile (fun c => decide (c.toNat ≤ 32))).reverse.dropWhile
    (fun c => decide (c.toNat ≤ 32))).reverse.filter
    (fun c => !(c == '\t' || c == '\n' || c == '\r'))

/-- Model of the platform URL constructor (see the section comment):
none models a thrown TypeError. -/
def parseURL (s : String) : Option URLParts :=
  match splitAtSub [':', '/', '/'] (urlPreprocess s) with
  | none => none
  | some (scheme, rest) =>
    if isSchemeChars scheme then
      let auth := rest.takeWhile (fun c => !(c == '/' || c == '?' || c == '#'))
      let rest2 := rest.drop auth.length
      let hostPort := dropUserinfo auth
      let host := hostPort.takeWhile (fun c => c != ':')
      let portPart := hostPort.drop (host.length + 1)
      if host = [] then none
      else if portPart.all Char.isDigit then
        let path := rest2.takeWhile (fun c => !(c == '?' || c == '#'))
        let rest3 := rest2.drop path.length
        let query :=
          match rest3 with
          | '?' :: qs => qs.takeWhile (fun c => c != '#')
          | _ => []
        some { hostname := String.mk (host.map Char.toLower),
               pathname := if path = [] then "/" else String.mk path,
               query := String.mk query }
      else none
    else none

/-- The plus-to-space decoding step of URLSearchParams values (percent
sequences are not decoded by the model; the key v contains neither). -/
def plusToSpace (c : Char) : Char := if c = '+' then ' ' else c

/-- URLSearchParams.get on the raw query text: split on ampersands,
drop empty pieces, split each piece at its first equals sign, return the
value of the first pair whose key matches. -/
def searchParamsGet (query : String) (key : String) : Option String :=
  let pieces := (splitOnChar '&' query.data).filter (fun p => p ≠ [])
  let pairs := pieces.map (fun p =>
    match splitAtSub ['='] p with
    | some (k, v) => (k, v)
    | none => (p, ([] : List Char)))
  match pairs.find? (fun kv => kv.1 == key.data) with
  | some kv => some (String.mk (kv.2.map plusToSpace))
  | none => none

/-- Characters admitted by the capture group of the two path patterns in
getVideoIdFromUrl: anything except a slash or a question mark. -/
def capChar (c : Char) : Bool := !(c == '/' || c == '?')

/-- Leftmost match of an unanchored pattern "marker followed by one or
more capture characters" (the embed and shorts regular expressions of
src/content.js, lines 61 and 63): scan positions left to right, succeed
at the first position where the marker is followed by at least one
capture character, and capture greedily. -/
def captureAfterAux (marker : List Char) : List Char → Option (List Char)
  | [] => none
  | c :: rest =>
    if marker.isPrefixOf (c :: rest) ∧ ((c :: rest).drop marker.length).takeWhile capChar ≠ [] then
      some (((c :: rest).drop marker.length).takeWhile capChar)
    else captureAfterAux marker rest

/-- String-level wrapper of captureAfterAux. -/
def captureAfter (marker : String) (s : String) : Option String :=
  (captureAfterAux marker.data s.data).map String.mk

/-- The path segments of the youtu.be short-link branch
(src/content.js, lines 65-68): split the pathname on slashes and keep
the truthy (non-empty) segments. -/
def shortLinkSegs (pathname : String) : List (List Char) :=
  (splitOnChar '/' pathname.data).filter (fun seg => seg ≠ [])

/-- The youtu.be short-link extraction (src/content.js, lines 65-68):
when the hostname contains youtu.be, the first non-empty path segment,
with the JavaScript "or null" guard on a falsy segment. -/
def shortLinkOf (u : URLParts) : Option String :=
  if containsSub u.hostname.data ("youtu.be".data) then
    match (shortLinkSegs u.pathname).head? with
    | some seg => if seg = [] then none else some (String.mk seg)
    | none => none
  else none

/-- The fall-through chain of getVideoIdFromUrl after the query
parameter check: embed pattern, then shorts pattern, then the youtu.be
short-link branch, then null. -/
def pathFallback (u : URLParts) : Option String :=
  match captureAfter "/embed/" u.pathname with
  | some c => some c
  | none =>
    match captureAfter "/shorts/" u.pathname with
    | some c => some c
    | none => shortLinkOf u

/-- getVideoIdFromUrl (src/content.js, lines 56-74): parse the URL
(returning null when the constructor throws), return the v query
parameter when it is truthy (present and non-empty), else fall through
to the path patterns. -/
def getVideoIdFromUrl (urlString : String) : Option String :=
  match parseURL urlString with
  | none => none
  | some url =>
    match searchParamsGet url.query "v" with
    | some v => if v = "" then pathFallback url else some v
    | none => pathFallback url

/-!
Specification-side resolver definitions for the refinement comparison of
claim C5.  Each extractor names one inspection the specification lists
(explicit query parameter, short-link path segment, embedded-player path
segment, short-form path segment); the resolver tries them in a stated
order and returns the first match, which is exactly how the
specification words the routine.
-/

/-- The explicit query parameter naming the content: the v parameter
when present and truthy. -/
def vParamOf (u : URLParts) : Option String :=
  match searchParamsGet u.query "v" with
  | some v => if v = "" then none else some v
  | none => none

/-- The embedded-player path segment. -/
def embedOf (u : URLParts) : Option String := captureAfter "/embed/" u.pathname

/-- The short-form path segment. -/
def shortsOf (u : URLParts) : Option String := captureAfter "/shorts/" u.pathname

/-- First defined value of a list of attempts, in order. -/
def firstSome : List (Option String) → Option String
  | [] => none
  | none :: rest => firstSome rest
  | some x :: _ => some x

/-- The resolver in the order the claim states: query parameter, then
short-link segment, then embedded-player segment, then short-form
segment, first match wins, null when none match. -/
def resolveIdentifierClaimOrder (urlString : String) : Option String :=
  match parseURL urlString with
  | none => none
  | some u => firstSome [vParamOf u, shortLinkOf u, embedOf u, shortsOf u]

/-- The resolver in the order the code actually implements: query
parameter, then embedded-player segment, then short-form segment, then
short-link segment. -/
def resolveIdentifierOrdered (urlString : String) : Option String :=
  match parseURL urlString with
  | none => none
  | some u => firstSome [vParamOf u, embedOf u, shortsOf u, shortLinkOf u]

/-- Claim C5, counterexample: the code does not inspect the URL in the
order the claim states.  On a short-link host with an embed-style path
the code extracts the embedded-player segment (it checks that pattern
before the short-link branch), while a first-match resolver in the
claimed order would return the first path segment. -/
theorem getVideoIdFromUrl_order_counterexample :
    getVideoIdFromUrl "https://youtu.be/embed/abc" ≠
      resolveIdentifierClaimOrder "https://youtu.be/embed/abc" ∧
    getVideoIdFromUrl "https://youtu.be/embed/abc" = some "abc" ∧
    resolveIdentifierClaimOrder "https://youtu.be/embed/abc" = some "embed" := by
  refine ⟨by decide, by decide, by decide⟩

/-- Claim C5 (amended): getVideoIdFromUrl inspects its input in the
order query parameter, embedded-player segment, short-form segment,
short-link segment, returning the first match and null when none match
(the first-match resolver in that order coincides with the code on every
input string, and the function is total, so a malformed URL yields null
rather than a failure); on the scenario URLs it resolves the expected
identifiers and on an unresolvable or malformed URL it yields null. -/
theorem getVideoIdFromUrl_ordered_resolution :
    (∀ s, getVideoIdFromUrl s = resolveIdentifierOrdered s) ∧
    getVideoIdFromUrl "https://www.youtube.com/watch?v=abc123" = some "abc123" ∧
    getVideoIdFromUrl "https://youtu.be/abc123" = some "abc123" ∧
    getVideoIdFromUrl "https://www.youtube.com/embed/abc123" = some "abc123" ∧
    getVideoIdFromUrl "https://www.youtube.com/shorts/abc123" = some "abc123" ∧
    getVideoIdFromUrl "https://www.youtube.com/feed/trending" = none ∧
    getVideoIdFromUrl "not a url" = none := by
  refine ⟨?_, by decide, by decide, by decide, by decide, by decide, by decide⟩
  intro s
  have hfb : ∀ u, pathFallback u = firstSome [embedOf u, shortsOf u, shortLinkOf u] := by
    intro u
    cases hemb : captureAfter "/embed/" u.pathname with
    | some c => simp [pathFallback, embedOf, hemb, firstSome]
    | none =>
      cases hsh : captureAfter "/shorts/" u.pathname with
      | some c => simp [pathFallback, embedOf, shortsOf, hemb, hsh, firstSome]
      | none =>
        cases hsl : shortLinkOf u with
        | some c => simp [pathFallback, embedOf, shortsOf, hemb, hsh, hsl, firstSome]
        | none => simp [pathFallback, embedOf, shortsOf, hemb, hsh, hsl, firstSome]
  cases hp : parseURL s with
  | none => simp [getVideoIdFromUrl, resolveIdentifierOrdered, hp]
  | some u =>
    cases hv : searchParamsGet u.query "v" with
    | none =>
      simp [getVideoIdFromUrl, resolveIdentifierOrdered, hp, hv, vParamOf, firstSome, hfb]
    | some v =>
      by_cases hev : v = ""
      · simp [getVideoIdFromUrl, resolveIdentifierOrdered, hp, hv, vParamOf, hev, firstSome, hfb]
      · simp [getVideoIdFromUrl, resolveIdentifierOrdered, hp, hv, vParamOf, hev, firstSome]

/-- The capture of the unanchored pattern matcher is never empty: the
pattern demands at least one capture character. -/
theorem captureAfterAux_ne_nil (marker : List Char) (l cap : List Char)
    (h : captureAfterAux marker l = some cap) : cap ≠ [] := by
  induction l with
  | nil => simp [captureAfterAux] at h
  | cons c rest ih =>
    rw [captureAfterAux] at h
    split_ifs at h with hcond
    · cases h
      exact hcond.2
    · exact ih h

/-- String-level corollary: a successful capture is a non-empty string. -/
theorem captureAfter_ne_empty (marker s c : String)
    (h : captureAfter marker s = some c) : c ≠ "" := by
  unfold captureAfter at h
  cases haux : captureAfterAux marker.data s.data with
  | none => rw [haux] at h; cases h
  | some cap =>
    rw [haux] at h
    cases h
    intro hc
    exact captureAfterAux_ne_nil marker.data s.data cap haux (by
      have := congrArg String.data hc
      simpa using this)

/-- The short-link branch never yields the empty string: segments are
filtered to be non-empty and a falsy segment is mapped to null. -/
theorem shortLinkOf_ne_empty (u : URLParts) (r : String)
    (h : shortLinkOf u = some r) : r ≠ "" := by
  unfold shortLinkOf at h
  split_ifs at h with hyt
  cases hseg : (shortLinkSegs u.pathname).head? with
  | none => rw [hseg] at h; cases h
  | some seg =>
    simp only [hseg] at h
    split_ifs at h with hnil
    cases h
    intro hc
    apply hnil
    have := congrArg String.data hc
    simpa using this

/-- No branch of the path fall-through chain yields the empty string. -/
theorem pathFallback_ne_empty (u : URLParts) (r : String)
    (h : pathFallback u = some r) : r ≠ "" := by
  unfold pathFallback at h
  cases hemb : captureAfter "/embed/" u.pathname with
  | some c =>
    rw [hemb] at h
    cases h
    exact captureAfter_ne_empty _ _ _ hemb
  | none =>
    rw [hemb] at h
    cases hsh : captureAfter "/shorts/" u.pathname with
    | some c =>
      rw [hsh] at h
      cases h
      exact captureAfter_ne_empty _ _ _ hsh
    | none =>
      rw [hsh] at h
      exact shortLinkOf_ne_empty u r h

/-- Claim C10 (implicit): getVideoIdFromUrl returns null or a non-empty
string on every input; it never returns the empty string as an
identifier (an empty query value falls through, the path patterns
capture at least one character, and an empty short-link segment yields
null). -/
theorem getVideoIdFromUrl_never_empty (s r : String)
    (h : getVideoIdFromUrl s = some r) : r ≠ "" := by
  cases hp : parseURL s with
  | none => simp [getVideoIdFromUrl, hp] at h
  | some u =>
    simp only [getVideoIdFromUrl, hp] at h
    cases hv : searchParamsGet u.query "v" with
    | none =>
      simp only [hv] at h
      exact pathFallback_ne_empty u r h
    | some v =>
      simp only [hv] at h
      by_cases hev : v = ""
      · rw [if_pos hev] at h
        exact pathFallback_ne_empty u r h
      · rw [if_neg hev] at h
        cases h
        exact hev

/-- Concrete instance: the identifier resolved from a watch URL is a
non-empty string. -/
theorem getVideoIdFromUrl_never_empty_witness :
    getVideoIdFromUrl "https://www.youtube.com/watch?v=abc123" = some "abc123" ∧
    ("abc123" : String) ≠ "" :=
  ⟨by decide,
   getVideoIdFromUrl_never_empty "https://www.youtube.com/watch?v=abc123" "abc123" (by decide)⟩
